import Mathlib

/-!
Verification of the risk-scoring and simulation engine in
`backend/app/services/ml/risk_modeling_service.py` (class `RiskModelingService`).

The Python service is shallowly embedded here:
* Python floats are modelled by exact rationals (`ℚ`); where float NaN can
  arise (numpy statistics of empty or NaN-containing arrays) values are
  modelled by `Option ℚ`, with `none` standing for NaN.
* The SQLAlchemy session is modelled by explicit lists of rows (`DB`), and
  each service method threads the database state explicitly.
* `uuid.uuid4().hex[:12]` and `datetime.utcnow()` are nondeterministic
  inputs of the environment, passed as explicit `uuid_hex` / `now` arguments.
* numpy's process-wide random generator is modelled by an explicit global
  state (`NpState`) threaded through the fund-risk path; `np.random.seed`
  replaces that state, and draws advance it deterministically.
-/

namespace RiskModeling

/-- Row of the `AIModel` table; only the columns the service reads. -/
structure AIModelRec where
  model_id : String
  status : String
  version : String
deriving Repr, DecidableEq

/-- Row of the `FeatureStore` table: nullable numeric feature columns for one
entity at one timestamp (`none` models SQL NULL / Python `None`). -/
structure FeatureStoreRecord where
  entity_type : String
  entity_id : String
  feature_timestamp : ℕ
  late_payment_count : Option ℚ
  missed_payment_count : Option ℚ
  on_time_payment_rate : Option ℚ
  avg_payment_delay_days : Option ℚ
  current_balance : Option ℚ
  account_growth_rate : Option ℚ
  leverage_ratio : Option ℚ
  liquidity_risk : Option ℚ
  recent_sentiment_score : Option ℚ
  sentiment_trend : Option ℚ
  communication_frequency : Option ℚ
  portfolio_concentration : Option ℚ
  portfolio_volatility : Option ℚ
  diversification_score : Option ℚ
deriving Repr, DecidableEq

/-- The feature dict built by `_extract_risk_features` (all values present). -/
structure RiskFeatures where
  late_payment_count : ℚ
  missed_payment_count : ℚ
  on_time_payment_rate : ℚ
  avg_payment_delay_days : ℚ
  current_balance : ℚ
  account_growth_rate : ℚ
  leverage_ratio : ℚ
  liquidity_risk : ℚ
  recent_sentiment_score : ℚ
  sentiment_trend : ℚ
  communication_frequency : ℚ
  portfolio_concentration : ℚ
  portfolio_volatility : ℚ
  diversification_score : ℚ
deriving Repr, DecidableEq

/-- One entry of `top_risk_factors`. -/
structure RiskFactor where
  factor : String
  weight : ℚ
deriving Repr, DecidableEq

/-- The `contributing_metrics` JSON column written on the fund path
(`none` models a float NaN). -/
structure ContributingMetrics where
  var_95 : Option ℚ
  cvar_95 : Option ℚ
  volatility : Option ℚ
  max_drawdown : Option ℚ
deriving Repr, DecidableEq

/-- Row of the `RiskPrediction` table.  Columns not assigned by a given code
path keep the ORM default `none` (SQL NULL). -/
structure RiskPredictionRec where
  prediction_id : String
  model_id : String
  risk_type : String
  risk_horizon : String
  investor_id : Option String := none
  fund_id : Option String := none
  risk_probability : ℚ
  risk_tier : Option String := none
  risk_score : ℤ
  previous_risk_score : Option ℤ := none
  risk_trend : Option String := none
  trend_magnitude : Option ℤ := none
  top_risk_factors : Option (List RiskFactor) := none
  estimated_loss_exposure : Option ℚ := none
  exposure_percentage : Option ℚ := none
  contributing_metrics : Option ContributingMetrics := none
  recommended_actions : List String
  prediction_timestamp : ℕ
deriving Repr, DecidableEq

/-- The database session: the three tables the service touches. -/
structure DB where
  models : List AIModelRec
  feature_store : List FeatureStoreRecord
  predictions : List RiskPredictionRec
deriving Repr, DecidableEq

/-- Python's `x or d` for a nullable numeric column: the stored value unless
it is falsy (`None` or `0`/`0.0`), in which case the default `d`. -/
def pyOr (o : Option ℚ) (d : ℚ) : ℚ :=
  match o with
  | none => d
  | some x => if x = 0 then d else x

/-- A stored nullable numeric value is falsy in Python (`None` or zero). -/
def pyFalsy (o : Option ℚ) : Prop := o = none ∨ o = some 0

instance (o : Option ℚ) : Decidable (pyFalsy o) := by
  unfold pyFalsy; infer_instance

/-- Python's `int()` on a float: truncation toward zero. -/
def pyInt (x : ℚ) : ℤ := if 0 ≤ x then ⌊x⌋ else ⌈x⌉

/-- `self.db.query(FeatureStore).filter(entity_type == "INVESTOR",
entity_id == investor_id).order_by(feature_timestamp.desc()).first()`. -/
def latest_feature_record (db : DB) (investor_id : String) :
    Option FeatureStoreRecord :=
  (List.insertionSort (fun a b => b.feature_timestamp ≤ a.feature_timestamp)
    (db.feature_store.filter
      (fun r => r.entity_type == "INVESTOR" && r.entity_id == investor_id))).head?

/-- `_generate_default_risk_features`: the default feature vector used when no
feature record exists. -/
def generate_default_risk_features : RiskFeatures :=
  { late_payment_count := 1
    missed_payment_count := 0
    on_time_payment_rate := 9/10
    avg_payment_delay_days := 3/2
    current_balance := 1000000
    account_growth_rate := 8/100
    leverage_ratio := 3/10
    liquidity_risk := 15/100
    recent_sentiment_score := 6/10
    sentiment_trend := 0
    communication_frequency := 5
    portfolio_concentration := 4/10
    portfolio_volatility := 18/100
    diversification_score := 7/10 }

/-- The dict literal returned by `_extract_risk_features` when a feature
record exists: every column is read through `column or default`. -/
def features_of_record (r : FeatureStoreRecord) : RiskFeatures :=
  { late_payment_count := pyOr r.late_payment_count 0
    missed_payment_count := pyOr r.missed_payment_count 0
    on_time_payment_rate := pyOr r.on_time_payment_rate (9/10)
    avg_payment_delay_days := pyOr r.avg_payment_delay_days (3/2)
    current_balance := pyOr r.current_balance 1000000
    account_growth_rate := pyOr r.account_growth_rate (8/100)
    leverage_ratio := pyOr r.leverage_ratio (3/10)
    liquidity_risk := pyOr r.liquidity_risk (15/100)
    recent_sentiment_score := pyOr r.recent_sentiment_score (6/10)
    sentiment_trend := pyOr r.sentiment_trend 0
    communication_frequency := pyOr r.communication_frequency 5
    portfolio_concentration := pyOr r.portfolio_concentration (4/10)
    portfolio_volatility := pyOr r.portfolio_volatility (18/100)
    diversification_score := pyOr r.diversification_score (7/10) }

/-- `_extract_risk_features`. -/
def extract_risk_features (db : DB) (investor_id : String) : RiskFeatures :=
  match latest_feature_record db investor_id with
  | none => generate_default_risk_features
  | some r => features_of_record r

/-- `_predict_default_risk`: five additive contributions, a cap at 100, the
probability derived from the (float, un-truncated) capped score, and the
integer score obtained by Python `int()` truncation. -/
def predict_default_risk (features : RiskFeatures) : ℚ × ℤ :=
  let late_payment_score := features.late_payment_count * 5
  let missed_payment_score := features.missed_payment_count * 15
  let on_time_bonus := (1 - features.on_time_payment_rate) * 30
  let leverage_score := features.leverage_ratio * 20
  let sentiment_score := max 0 (1/2 - features.recent_sentiment_score) * 25
  let risk_score := min 100 (late_payment_score + missed_payment_score +
    on_time_bonus + leverage_score + sentiment_score)
  let risk_probability := risk_score / 100 * (1/4)
  (risk_probability, pyInt risk_score)

/-- `_calculate_risk_tier`. -/
def calculate_risk_tier (risk_probability : ℚ) : String :=
  if risk_probability < 2/100 then "TIER_1"
  else if risk_probability < 5/100 then "TIER_2"
  else if risk_probability < 10/100 then "TIER_3"
  else if risk_probability < 20/100 then "TIER_4"
  else "TIER_5"

/-- The recorded DEFAULT_RISK predictions for an investor, most recent first:
`query(RiskPrediction).filter(investor_id == ..., risk_type == "DEFAULT_RISK")
.order_by(prediction_timestamp.desc())`. -/
def prior_default_risk_predictions (db : DB) (investor_id : String) :
    List RiskPredictionRec :=
  List.insertionSort (fun a b => b.prediction_timestamp ≤ a.prediction_timestamp)
    (db.predictions.filter
      (fun p => p.investor_id == some investor_id && p.risk_type == "DEFAULT_RISK"))

/-- `_calculate_risk_trend`: the query above continued with
`.offset(1).first()`, then threshold comparison of the score difference.
Note the service calls this before the current prediction is persisted. -/
def calculate_risk_trend (db : DB) (investor_id : String) (current_score : ℤ) :
    ℤ × String :=
  match ((prior_default_risk_predictions db investor_id).drop 1).head? with
  | none => (current_score, "STABLE")
  | some previous_prediction =>
    let previous_score := previous_prediction.risk_score
    let diff := current_score - previous_score
    (previous_score,
      if diff > 5 then "DETERIORATING"
      else if diff < -5 then "IMPROVING"
      else "STABLE")

/-- `_identify_risk_factors`. -/
def identify_risk_factors (features : RiskFeatures) : List RiskFactor :=
  let factors : List RiskFactor :=
    (if features.late_payment_count > 2 then
      [{ factor := "recent_payment_delays", weight := 28/100 }] else []) ++
    (if features.account_growth_rate < 0 then
      [{ factor := "account_balance_decline", weight := 22/100 }] else []) ++
    (if features.recent_sentiment_score < 3/10 then
      [{ factor := "communication_sentiment_negative", weight := 18/100 }] else []) ++
    (if features.leverage_ratio > 1/2 then
      [{ factor := "high_leverage_ratio", weight := 15/100 }] else [])
  let factors :=
    if factors.isEmpty then
      [{ factor := "portfolio_volatility", weight := 20/100 },
       { factor := "market_conditions", weight := 15/100 }]
    else factors
  factors.take 5

/-- `_calculate_loss_exposure`.  When a feature record exists its
`current_balance` column is used directly (no `or` fallback there): a stored
NULL would make Python raise a `TypeError` on `None * float`, modelled as an
error value. -/
def calculate_loss_exposure (db : DB) (investor_id : String)
    (risk_probability : ℚ) : Except String (ℚ × ℚ) :=
  let balance : Option ℚ :=
    match latest_feature_record db investor_id with
    | none => some 1000000
    | some r => r.current_balance
  match balance with
  | none => Except.error "TypeError: unsupported operand for NoneType * float"
  | some b =>
    let total_portfolio : ℚ := 15000000
    let loss_exposure := b * risk_probability
    Except.ok (loss_exposure, loss_exposure / total_portfolio * 100)

/-- `_generate_risk_recommendations`. -/
def generate_risk_recommendations (risk_tier : String)
    (factors : List RiskFactor) : List String :=
  let recommendations : List String :=
    (if risk_tier = "TIER_4" ∨ risk_tier = "TIER_5" then
      ["Increase monitoring frequency to weekly",
       "Schedule relationship manager call",
       "Review account covenants"] else []) ++
    (if factors.any (fun f => f.factor == "recent_payment_delays") then
      ["Investigate payment processing issues"] else []) ++
    (if factors.any (fun f => f.factor == "communication_sentiment_negative") then
      ["Proactive outreach to address concerns"] else [])
  if recommendations.isEmpty then ["Continue standard monitoring"]
  else recommendations

/-- `abs(risk_score - previous_score) if previous_score else 0`: Python
treats both `None` and a previous score of `0` as falsy. -/
def trend_magnitude_py (previous_score : Option ℤ) (risk_score : ℤ) : ℤ :=
  match previous_score with
  | none => 0
  | some p => if p = 0 then 0 else |risk_score - p|

/-- `assess_investor_default_risk`: the full default-risk path, returning the
created `RiskPrediction` row (whose fields the response dict mirrors) and the
updated database, or the raised error together with the untouched database. -/
def assess_investor_default_risk (db : DB) (investor_id : String)
    (risk_horizon : String) (include_trend : Bool)
    (uuid_hex : String) (now : ℕ) :
    Except String RiskPredictionRec × DB :=
  match db.models.find?
      (fun m => m.model_id == "DEFAULT_RISK_NN_V2.3" && m.status == "PRODUCTION") with
  | none => (Except.error "Default risk model DEFAULT_RISK_NN_V2.3 not found", db)
  | some model =>
    let features := extract_risk_features db investor_id
    let pr := predict_default_risk features
    let risk_probability := pr.1
    let risk_score := pr.2
    let risk_tier := calculate_risk_tier risk_probability
    let pt : Option ℤ × String :=
      if include_trend then
        let t := calculate_risk_trend db investor_id risk_score
        (some t.1, t.2)
      else (none, "STABLE")
    let previous_score := pt.1
    let risk_trend := pt.2
    let top_risk_factors := identify_risk_factors features
    match calculate_loss_exposure db investor_id risk_probability with
    | Except.error e => (Except.error e, db)
    | Except.ok loss_exposure =>
      let recommendations := generate_risk_recommendations risk_tier top_risk_factors
      let prediction : RiskPredictionRec :=
        { prediction_id := "PRED_RISK_" ++ uuid_hex
          model_id := model.model_id
          risk_type := "DEFAULT_RISK"
          risk_horizon := risk_horizon
          investor_id := some investor_id
          risk_probability := risk_probability
          risk_tier := some risk_tier
          risk_score := risk_score
          previous_risk_score := previous_score
          risk_trend := some risk_trend
          trend_magnitude := some (trend_magnitude_py previous_score risk_score)
          top_risk_factors := some top_risk_factors
          estimated_loss_exposure := some loss_exposure.1
          exposure_percentage := some loss_exposure.2
          recommended_actions := recommendations
          prediction_timestamp := now }
      (Except.ok prediction,
        { db with predictions := db.predictions ++ [prediction] })

/-- `asset_allocation` sub-dict of the fund feature vector. -/
structure AssetAllocation where
  stocks : ℚ
  bonds : ℚ
  alternatives : ℚ
deriving Repr, DecidableEq

/-- The fund feature dict built by `_extract_fund_features`. -/
structure FundFeatures where
  historical_returns : List ℚ
  volatility : ℚ
  sharpe_ratio : ℚ
  max_drawdown : ℚ
  correlation_sp500 : ℚ
  asset_allocation : AssetAllocation
deriving Repr, DecidableEq

/-- `_extract_fund_features`: a hard-coded feature vector (the fund id is not
consulted). -/
def extract_fund_features (_fund_id : String) : FundFeatures :=
  { historical_returns := [8/100, 12/100, -3/100, 15/100, 9/100]
    volatility := 18/100
    sharpe_ratio := 95/100
    max_drawdown := -12/100
    correlation_sp500 := 65/100
    asset_allocation := { stocks := 60/100, bonds := 30/100, alternatives := 10/100 } }

/-! ### Model of numpy's process-wide random generator

`np.random.seed(n)` replaces the process-wide generator state with a state
derived deterministically from `n`; each draw advances that state.  The
generator state is modelled as a natural number and the draw stream by a
linear congruential stand-in producing rational values.  Nothing proved below
depends on the particular sample values, only on the seeding discipline
(which state is used, how it is replaced) and on NaN propagation. -/

/-- Process-wide numpy random generator state. -/
abbrev NpState := ℕ

/-- `np.random.seed(n)`: the replaced process-wide state. -/
def np_seed (n : ℕ) : NpState := n

/-- One step of the modelled generator. -/
def lcg_next (s : ℕ) : ℕ := (1103515245 * s + 12345) % 2147483648

/-- A rational "standard normal" stand-in value in `[-1, 1]` derived from a
generator state. -/
def lcg_noise (s : ℕ) : ℚ := ((s % 2001 : ℕ) : ℚ) / 1000 - 1

/-- Draw `n` samples of `mean + std * noise`, threading the generator state.
A NaN mean (`none`, as for `np.mean([])`) makes every sample NaN while the
state still advances identically. -/
def np_normal_go (mean : Option ℚ) (std : ℚ) : ℕ → NpState → List (Option ℚ) × NpState
  | 0, s => ([], s)
  | n + 1, s =>
    let s1 := lcg_next s
    let rest := np_normal_go mean std n s1
    ((mean.map (fun m => m + std * lcg_noise s1)) :: rest.1, rest.2)

/-- `np.random.normal(mean, std, n)` drawn from a given generator state. -/
def np_random_normal (st : NpState) (mean : Option ℚ) (std : ℚ) (n : ℕ) :
    List (Option ℚ) × NpState :=
  np_normal_go mean std n st

/-! ### numpy statistics on rational arrays

`none` models float NaN.  `np.mean` of an empty array is NaN; a NaN element
makes `np.mean`, `np.std`, `np.min` and `np.percentile` return NaN. -/

/-- `np.mean` of a real-valued (NaN-free) array; NaN (`none`) when empty. -/
def np_mean_q (xs : List ℚ) : Option ℚ :=
  if xs.length = 0 then none else some (xs.sum / (xs.length : ℚ))

/-- `np.mean` with NaN propagation. -/
def np_mean (xs : List (Option ℚ)) : Option ℚ :=
  if xs.any (fun o => o.isNone) then none else np_mean_q (xs.filterMap id)

/-- `np.min` with NaN propagation (undefined, hence NaN-modelled, on empty). -/
def np_min (xs : List (Option ℚ)) : Option ℚ :=
  if xs.any (fun o => o.isNone) then none
  else
    match xs.filterMap id with
    | [] => none
    | y :: ys => some (ys.foldl min y)

/-- Rational approximation of the square root, standing in for the float
`sqrt` inside `np.std`; only its definedness matters to the properties
proved here, never its value. -/
def rat_sqrt_approx (q : ℚ) : ℚ :=
  ((Nat.sqrt ((q.num.toNat * 1000000000000) / q.den) : ℚ)) / 1000000

/-- `np.std` of a real-valued array: root of the mean squared deviation. -/
def np_std_q (xs : List ℚ) : Option ℚ :=
  match np_mean_q xs with
  | none => none
  | some m =>
    some (rat_sqrt_approx ((xs.map (fun x => (x - m) ^ 2)).sum / (xs.length : ℚ)))

/-- `np.std` with NaN propagation. -/
def np_std (xs : List (Option ℚ)) : Option ℚ :=
  if xs.any (fun o => o.isNone) then none else np_std_q (xs.filterMap id)

/-- Linear interpolation between the two order statistics bracketing `rank`,
as in numpy's default percentile method. -/
def interp_at (s : List ℚ) (rank : ℚ) : ℚ :=
  s.getD (⌊rank⌋).toNat 0 +
    (rank - (⌊rank⌋ : ℚ)) * (s.getD (⌈rank⌉).toNat 0 - s.getD (⌊rank⌋).toNat 0)

/-- `np.percentile(xs, q)` on a real-valued array: sort ascending, take the
linearly interpolated value at rank `q/100 * (len - 1)`. -/
def np_percentile_q (xs : List ℚ) (q : ℚ) : ℚ :=
  interp_at (List.insertionSort (· ≤ ·) xs) (q / 100 * ((xs.length : ℚ) - 1))

/-- `np.percentile` with NaN propagation (NaN-modelled on empty input, which
never occurs on the simulated 10000-sample array). -/
def np_percentile (xs : List (Option ℚ)) (q : ℚ) : Option ℚ :=
  if xs.any (fun o => o.isNone) then none
  else if xs.isEmpty then none
  else some (np_percentile_q (xs.filterMap id) q)

/-- The dict returned by `_run_monte_carlo_simulation`. -/
structure MCResult where
  returns : List (Option ℚ)
  expected_return : Option ℚ
  volatility : Option ℚ
  max_drawdown : Option ℚ
  prob_positive : ℚ
  p5 : Option ℚ
  p25 : Option ℚ
  p50 : Option ℚ
  p75 : Option ℚ
  p95 : Option ℚ
deriving Repr, DecidableEq

/-- `np.mean(simulated_returns > 0)`: the fraction of samples strictly
positive (a NaN sample compares false, and the result is always a real). -/
def np_fraction_positive (xs : List (Option ℚ)) : ℚ :=
  ((xs.countP (fun o =>
    match o with
    | some x => decide (0 < x)
    | none => false)) : ℚ) / ((xs.length : ℚ))

/-- `_run_monte_carlo_simulation`: seeds the process-wide generator with the
hard-coded constant 42 (the incoming state `g` is overwritten, never read),
draws 10000 samples around the historical mean, and summarises them. -/
def run_monte_carlo_simulation (features : FundFeatures) (g : NpState) :
    MCResult × NpState :=
  let _ := g
  let mean_return := np_mean_q features.historical_returns
  let volatility := features.volatility
  let g1 := np_seed 42
  let draw := np_random_normal g1 mean_return volatility 10000
  let simulated_returns := draw.1
  ({ returns := simulated_returns
     expected_return := np_mean simulated_returns
     volatility := np_std simulated_returns
     max_drawdown := np_min simulated_returns
     prob_positive := np_fraction_positive simulated_returns
     p5 := np_percentile simulated_returns 5
     p25 := np_percentile simulated_returns 25
     p50 := np_percentile simulated_returns 50
     p75 := np_percentile simulated_returns 75
     p95 := np_percentile simulated_returns 95 }, draw.2)

/-- `_calculate_var` on a real-valued array. -/
def calculate_var_q (returns : List ℚ) (confidence : ℚ) : ℚ :=
  np_percentile_q returns ((1 - confidence) * 100)

/-- `_calculate_cvar` on a real-valued array: mean of the tail at or below
the VaR cutoff (NaN, i.e. `none`, when that tail is empty). -/
def calculate_cvar_q (returns : List ℚ) (confidence : ℚ) : Option ℚ :=
  let var := calculate_var_q returns confidence
  np_mean_q (returns.filter (fun r => r ≤ var))

/-- `_calculate_var` with NaN propagation. -/
def calculate_var (returns : List (Option ℚ)) (confidence : ℚ) : Option ℚ :=
  np_percentile returns ((1 - confidence) * 100)

/-- `_calculate_cvar` with NaN propagation: a NaN cutoff or NaN samples give
an empty tail (`NaN <= NaN` is false in Python), whose mean is NaN. -/
def calculate_cvar (returns : List (Option ℚ)) (confidence : ℚ) : Option ℚ :=
  match calculate_var returns confidence with
  | none => none
  | some var => np_mean_q ((returns.filterMap id).filter (fun r => r ≤ var))

/-- One entry of the fixed scenario parameter table. -/
structure ScenarioParams where
  scenario_return : ℚ
  volatility : ℚ
deriving Repr, DecidableEq

/-- The `scenario_params` dict in `_run_scenario_analysis`. -/
def scenario_params (s : String) : Option ScenarioParams :=
  if s = "BULL" then some { scenario_return := 15/100, volatility := 12/100 }
  else if s = "BASE" then some { scenario_return := 8/100, volatility := 18/100 }
  else if s = "BEAR" then some { scenario_return := -(15/100), volatility := 25/100 }
  else if s = "TAIL_EVENT" then some { scenario_return := -(30/100), volatility := 40/100 }
  else none

/-- One entry of the scenario-analysis result list. -/
structure ScenarioResult where
  scenario : String
  expected_return : ℚ
  volatility : ℚ
  probability : ℚ
deriving Repr, DecidableEq

/-- `_run_scenario_analysis`: `scenario_params.get(scenario, BASE)` for each
requested name; probability 0.25 for `"BASE"`, 0.10 otherwise. -/
def run_scenario_analysis (_features : FundFeatures) (scenarios : List String) :
    List ScenarioResult :=
  scenarios.map (fun scenario =>
    let params := (scenario_params scenario).getD
      { scenario_return := 8/100, volatility := 18/100 }
    { scenario := scenario
      expected_return := params.scenario_return
      volatility := params.volatility
      probability := if scenario = "BASE" then 1/4 else 1/10 })

/-- One entry of the fixed stress-test table. -/
structure StressTestResult where
  test : String
  expected_return : ℚ
  probability : ℚ
deriving Repr, DecidableEq

/-- `_run_stress_tests`: a static table. -/
def run_stress_tests (_features : FundFeatures) : List StressTestResult :=
  [{ test := "2008_FINANCIAL_CRISIS", expected_return := -(35/100), probability := 2/100 },
   { test := "INTEREST_RATE_SHOCK", expected_return := -(12/100), probability := 15/100 },
   { test := "LIQUIDITY_CRISIS", expected_return := -(18/100), probability := 8/100 }]

/-- Subtraction of a constant from a possibly-NaN value. -/
def opt_sub (a : Option ℚ) (b : ℚ) : Option ℚ := a.map (fun x => x - b)

/-- Float division with NaN propagation: a NaN operand, or a zero
denominator (non-finite float result), is modelled as `none`. -/
def opt_div (a b : Option ℚ) : Option ℚ :=
  match a, b with
  | some x, some y => if y = 0 then none else some (x / y)
  | _, _ => none

/-- A Python `<` comparison whose left side may be NaN (NaN compares false). -/
def opt_lt (a : Option ℚ) (c : ℚ) : Bool :=
  match a with
  | none => false
  | some x => decide (x < c)

/-- `_calculate_sharpe_ratio`. -/
def calculate_sharpe_ratio (mc : MCResult) : Option ℚ :=
  opt_div (opt_sub mc.expected_return (2/100)) mc.volatility

/-- `_calculate_sortino_ratio`: std of the sub-risk-free returns if any,
otherwise the overall volatility (NaN samples compare false and drop out). -/
def calculate_sortino_ratio (mc : MCResult) : Option ℚ :=
  let downside_returns := (mc.returns.filterMap id).filter (fun r => r < 2/100)
  let downside_std :=
    if downside_returns.length > 0 then np_std_q downside_returns
    else mc.volatility
  opt_div (opt_sub mc.expected_return (2/100)) downside_std

/-- The `risk_metrics` dict of the fund-risk response. -/
structure FundRiskMetrics where
  expected_return_1y : Option ℚ
  volatility : Option ℚ
  var_95 : Option ℚ
  var_99 : Option ℚ
  cvar_95 : Option ℚ
  sharpe_ratio : Option ℚ
  sortino_ratio : Option ℚ
  max_drawdown : Option ℚ
  probability_positive_return : ℚ
deriving Repr, DecidableEq

/-- `_generate_fund_risk_recommendations`. -/
def generate_fund_risk_recommendations (m : FundRiskMetrics) : List String :=
  let recommendations : List String :=
    (if opt_lt m.sharpe_ratio (1/2) then
      ["Consider portfolio rebalancing for better risk-adjusted returns"] else []) ++
    (if opt_lt m.max_drawdown (-(20/100)) then
      ["Review downside protection strategies"] else []) ++
    (if m.probability_positive_return < 3/4 then
      ["Evaluate defensive positioning"] else [])
  if recommendations.isEmpty then ["Maintain current risk management approach"]
  else recommendations

/-- The `RiskPrediction` row created on the fund path
(`assess_fund_performance_risk`, record construction): `risk_probability`
is `1 - prob_positive` and `risk_score` is `int((1 - prob_positive) * 100)`. -/
def fund_risk_record (model_id fund_id : String) (mc : MCResult)
    (var_95 cvar_95 : Option ℚ) (recommendations : List String)
    (uuid_hex : String) (now : ℕ) : RiskPredictionRec :=
  { prediction_id := "PRED_FUND_RISK_" ++ uuid_hex
    model_id := model_id
    risk_type := "FUND_PERFORMANCE_RISK"
    risk_horizon := "12M"
    fund_id := some fund_id
    risk_probability := 1 - mc.prob_positive
    risk_score := pyInt ((1 - mc.prob_positive) * 100)
    contributing_metrics := some
      { var_95 := var_95
        cvar_95 := cvar_95
        volatility := mc.volatility
        max_drawdown := mc.max_drawdown }
    recommended_actions := recommendations
    prediction_timestamp := now }

/-- The `return_distribution` part of the fund-risk response. -/
structure ReturnDistribution where
  expected_return : Option ℚ
  percentile_5 : Option ℚ
  percentile_25 : Option ℚ
  percentile_50 : Option ℚ
  percentile_75 : Option ℚ
  percentile_95 : Option ℚ
deriving Repr, DecidableEq

/-- The fund-risk response dict. -/
structure FundRiskResponse where
  prediction_id : String
  fund_id : String
  risk_metrics : FundRiskMetrics
  return_distribution : ReturnDistribution
  scenario_analysis : List ScenarioResult
  stress_tests : List StressTestResult
  model_version : String
deriving Repr, DecidableEq

/-- `assess_fund_performance_risk`: the full fund-risk path.  `scenarios` is
replaced by the four standard names when `None` or empty (`if not scenarios`).
Returns the response together with the created row, the updated database and
the (mutated) process-wide generator state. -/
def assess_fund_performance_risk (db : DB) (fund_id : String)
    (scenarios : Option (List String)) (uuid_hex : String) (now : ℕ)
    (g : NpState) :
    Except String (FundRiskResponse × RiskPredictionRec) × DB × NpState :=
  match db.models.find?
      (fun m => m.model_id == "FUND_RISK_MC_V1.5" && m.status == "PRODUCTION") with
  | none => (Except.error "Fund risk model FUND_RISK_MC_V1.5 not found", db, g)
  | some model =>
    let features := extract_fund_features fund_id
    let sim := run_monte_carlo_simulation features g
    let mc := sim.1
    let var_95 := calculate_var mc.returns (95/100)
    let var_99 := calculate_var mc.returns (99/100)
    let cvar_95 := calculate_cvar mc.returns (95/100)
    let scenario_names :=
      match scenarios with
      | none => ["BULL", "BASE", "BEAR", "TAIL_EVENT"]
      | some l => if l.isEmpty then ["BULL", "BASE", "BEAR", "TAIL_EVENT"] else l
    let scenario_results := run_scenario_analysis features scenario_names
    let risk_metrics : FundRiskMetrics :=
      { expected_return_1y := mc.expected_return
        volatility := mc.volatility
        var_95 := var_95
        var_99 := var_99
        cvar_95 := cvar_95
        sharpe_ratio := calculate_sharpe_ratio mc
        sortino_ratio := calculate_sortino_ratio mc
        max_drawdown := mc.max_drawdown
        probability_positive_return := mc.prob_positive }
    let prediction := fund_risk_record model.model_id fund_id mc var_95 cvar_95
      (generate_fund_risk_recommendations risk_metrics) uuid_hex now
    let response : FundRiskResponse :=
      { prediction_id := prediction.prediction_id
        fund_id := fund_id
        risk_metrics := risk_metrics
        return_distribution :=
          { expected_return := mc.expected_return
            percentile_5 := mc.p5
            percentile_25 := mc.p25
            percentile_50 := mc.p50
            percentile_75 := mc.p75
            percentile_95 := mc.p95 }
        scenario_analysis := scenario_results
        stress_tests := run_stress_tests features
        model_version := model.version }
    (Except.ok (response, prediction),
      { db with predictions := db.predictions ++ [prediction] }, sim.2)

/-! ### Concrete fixtures used to evaluate the embedded service -/

/-- The worked scoring scenario's feature vector: 3 late payments, no missed
payments, on-time rate 0.85, leverage 0.3, sentiment 0.6. -/
def c4_features : RiskFeatures :=
  { generate_default_risk_features with
    late_payment_count := 3
    missed_payment_count := 0
    on_time_payment_rate := 85/100
    leverage_ratio := 3/10
    recent_sentiment_score := 6/10 }

/-- A stored feature row realising the worked scoring scenario. -/
def c1_feature_row : FeatureStoreRecord :=
  { entity_type := "INVESTOR"
    entity_id := "INV1"
    feature_timestamp := 10
    late_payment_count := some 3
    missed_payment_count := some 0
    on_time_payment_rate := some (85/100)
    avg_payment_delay_days := some (3/2)
    current_balance := some 1000000
    account_growth_rate := some (8/100)
    leverage_ratio := some (3/10)
    liquidity_risk := some (15/100)
    recent_sentiment_score := some (6/10)
    sentiment_trend := some 0
    communication_frequency := some 5
    portfolio_concentration := some (4/10)
    portfolio_volatility := some (18/100)
    diversification_score := some (7/10) }

/-- A database holding a production default-risk model and the feature row
above, with no recorded predictions. -/
def db_c1 : DB :=
  { models := [{ model_id := "DEFAULT_RISK_NN_V2.3", status := "PRODUCTION", version := "2.3" }]
    feature_store := [c1_feature_row]
    predictions := [] }

/-- A recorded DEFAULT_RISK prediction row for investor INV1. -/
def prior_pred (score : ℤ) (ts : ℕ) : RiskPredictionRec :=
  { prediction_id := "PRED_RISK_PRIOR"
    model_id := "DEFAULT_RISK_NN_V2.3"
    risk_type := "DEFAULT_RISK"
    risk_horizon := "12M"
    investor_id := some "INV1"
    risk_probability := (score : ℚ) / 100 * (1/4)
    risk_tier := some "TIER_2"
    risk_score := score
    recommended_actions := ["Continue standard monitoring"]
    prediction_timestamp := ts }

/-- A database with exactly one recorded prior DEFAULT_RISK assessment
(score 50). -/
def db_c2_one : DB :=
  { models := [{ model_id := "DEFAULT_RISK_NN_V2.3", status := "PRODUCTION", version := "2.3" }]
    feature_store := []
    predictions := [prior_pred 50 10] }

/-- A database with two recorded prior DEFAULT_RISK assessments (score 50 at
time 10, then score 60 at time 20). -/
def db_c2_two : DB :=
  { models := [{ model_id := "DEFAULT_RISK_NN_V2.3", status := "PRODUCTION", version := "2.3" }]
    feature_store := []
    predictions := [prior_pred 50 10, prior_pred 60 20] }

/-- A database whose only default-risk model is not in PRODUCTION status. -/
def db_staging : DB :=
  { models := [{ model_id := "DEFAULT_RISK_NN_V2.3", status := "STAGING", version := "2.3" }]
    feature_store := []
    predictions := [] }

/-- Fund features with a zero-length historical return series. -/
def degenerate_fund_features : FundFeatures :=
  { extract_fund_features "FUND_1" with historical_returns := [] }

/-- A stored feature row whose on-time payment rate and balance are genuinely
zero and whose late-payment count is zero. -/
def c9_row : FeatureStoreRecord :=
  { entity_type := "INVESTOR"
    entity_id := "INV2"
    feature_timestamp := 3
    late_payment_count := some 0
    missed_payment_count := some 2
    on_time_payment_rate := some 0
    avg_payment_delay_days := some 4
    current_balance := some 0
    account_growth_rate := some (1/100)
    leverage_ratio := some (6/10)
    liquidity_risk := some (2/10)
    recent_sentiment_score := some (4/10)
    sentiment_trend := some (1/10)
    communication_frequency := some 2
    portfolio_concentration := some (5/10)
    portfolio_volatility := some (2/10)
    diversification_score := some (6/10) }

/-- A database holding only the zero-valued feature row above. -/
def db_c9 : DB :=
  { models := []
    feature_store := [c9_row]
    predictions := [] }

/-! ### General lemmas about the embedded service -/

/-- A falsy stored column is read as its hard-coded default. -/
lemma pyOr_falsy {o : Option ℚ} {d : ℚ} (h : pyFalsy o) : pyOr o d = d := by
  rcases h with h | h <;> subst h <;> simp [pyOr]

/-- A truthy stored column is read back unchanged. -/
lemma pyOr_truthy {o : Option ℚ} {d : ℚ} (h : ¬ pyFalsy o) : o = some (pyOr o d) := by
  match o with
  | none => exact absurd (Or.inl rfl) h
  | some x =>
    have hx : x ≠ 0 := fun hx0 => h (Or.inr (by rw [hx0]))
    simp [pyOr, hx]

/-! ### Lemmas about the percentile interpolation -/

/-- `getD` at an in-bounds index is the corresponding entry. -/
lemma getD_eq_getElem_of_lt (l : List ℚ) (n : ℕ) (h : n < l.length) :
    l.getD n 0 = l[n] := by
  simp [List.getD_eq_getElem?_getD, List.getElem?_eq_getElem h]

/-- Entries of a sorted list increase with the index. -/
lemma sorted_getD_mono {s : List ℚ} (hs : List.Sorted (· ≤ ·) s)
    {i j : ℕ} (hij : i ≤ j) (hj : j < s.length) :
    s.getD i 0 ≤ s.getD j 0 := by
  have hi : i < s.length := lt_of_le_of_lt hij hj
  rw [getD_eq_getElem_of_lt s i hi, getD_eq_getElem_of_lt s j hj]
  have h2 := List.Sorted.rel_get_of_le hs
    (show (⟨i, hi⟩ : Fin s.length) ≤ ⟨j, hj⟩ from hij)
  simpa using h2

/-- Index bounds for the bracketing order statistics of an in-range rank. -/
lemma rank_floor_ceil_bounds {s : List ℚ} {rank : ℚ}
    (h0 : 0 ≤ rank) (h1 : rank ≤ (s.length : ℚ) - 1) :
    (⌊rank⌋).toNat ≤ (⌈rank⌉).toNat ∧ (⌈rank⌉).toNat < s.length := by
  have hnQ : (1 : ℚ) ≤ (s.length : ℚ) := by linarith
  have hn : 1 ≤ s.length := by exact_mod_cast hnQ
  have hceil : ⌈rank⌉ ≤ (s.length : ℤ) - 1 := by
    rw [Int.ceil_le]
    push_cast
    linarith
  have h2 := Int.toNat_le_toNat hceil
  constructor
  · exact Int.toNat_le_toNat (Int.floor_le_ceil rank)
  · omega

/-- The interpolated value lies between its bracketing order statistics. -/
lemma interp_at_bounds {s : List ℚ} (hs : List.Sorted (· ≤ ·) s)
    {rank : ℚ} (h0 : 0 ≤ rank) (h1 : rank ≤ (s.length : ℚ) - 1) :
    s.getD (⌊rank⌋).toNat 0 ≤ interp_at s rank ∧
    interp_at s rank ≤ s.getD (⌈rank⌉).toNat 0 := by
  obtain ⟨hij, hj⟩ := rank_floor_ceil_bounds h0 h1
  have hab : s.getD (⌊rank⌋).toNat 0 ≤ s.getD (⌈rank⌉).toNat 0 :=
    sorted_getD_mono hs hij hj
  have hf0 : 0 ≤ rank - (⌊rank⌋ : ℚ) := by
    have := Int.floor_le rank
    linarith
  have hf1 : rank - (⌊rank⌋ : ℚ) ≤ 1 := by
    have := Int.lt_floor_add_one rank
    linarith
  unfold interp_at
  constructor
  · nlinarith [mul_nonneg hf0 (sub_nonneg.mpr hab)]
  · nlinarith [mul_nonneg (sub_nonneg.mpr hf1) (sub_nonneg.mpr hab)]

/-- When the rank is not an integer, its ceiling is its floor plus one. -/
lemma ceil_eq_floor_add_one_of_ne {r : ℚ} (h : (⌊r⌋ : ℚ) ≠ r) :
    ⌈r⌉ = ⌊r⌋ + 1 := by
  have h1 : ⌈r⌉ ≤ ⌊r⌋ + 1 := Int.ceil_le_floor_add_one r
  have h2 : ⌊r⌋ < ⌈r⌉ := by
    have hf : (⌊r⌋ : ℚ) < r := lt_of_le_of_ne (Int.floor_le r) h
    have hc : r ≤ (⌈r⌉ : ℚ) := Int.le_ceil r
    exact_mod_cast lt_of_lt_of_le hf hc
  omega

/-- The percentile interpolation is monotone in the rank. -/
lemma interp_at_mono {s : List ℚ} (hs : List.Sorted (· ≤ ·) s)
    {r1 r2 : ℚ} (h0 : 0 ≤ r1) (h12 : r1 ≤ r2) (h2 : r2 ≤ (s.length : ℚ) - 1) :
    interp_at s r1 ≤ interp_at s r2 := by
  have h01 : r1 ≤ (s.length : ℚ) - 1 := le_trans h12 h2
  have h02 : 0 ≤ r2 := le_trans h0 h12
  by_cases hf : ⌊r1⌋ = ⌊r2⌋
  · by_cases hint : (⌊r1⌋ : ℚ) = r1
    · have hz : r1 - (⌊r1⌋ : ℚ) = 0 := by linarith
      have hcollapse : interp_at s r1 = s.getD (⌊r1⌋).toNat 0 := by
        unfold interp_at
        rw [hz, zero_mul, add_zero]
      rw [hcollapse, hf]
      exact (interp_at_bounds hs h02 h2).1
    · have hl1 : (⌊r1⌋ : ℚ) < r1 := lt_of_le_of_ne (Int.floor_le r1) hint
      have hint2 : (⌊r2⌋ : ℚ) ≠ r2 := by
        rw [← hf]
        intro he
        linarith
      have hc1 : ⌈r1⌉ = ⌊r1⌋ + 1 := ceil_eq_floor_add_one_of_ne hint
      have hc2 : ⌈r2⌉ = ⌊r2⌋ + 1 := ceil_eq_floor_add_one_of_ne hint2
      have hup := (rank_floor_ceil_bounds h02 h2).2
      rw [hc2] at hup
      have hab : s.getD (⌊r2⌋).toNat 0 ≤ s.getD (⌊r2⌋ + 1).toNat 0 :=
        sorted_getD_mono hs (Int.toNat_le_toNat (by omega)) hup
      unfold interp_at
      rw [hc1, hc2, hf]
      nlinarith [mul_nonneg (sub_nonneg.mpr h12) (sub_nonneg.mpr hab)]
  · have hlt : ⌊r1⌋ < ⌊r2⌋ := lt_of_le_of_ne (Int.floor_mono h12) hf
    have hb1 := interp_at_bounds hs h0 h01
    have hb2 := interp_at_bounds hs h02 h2
    have hjb : (⌊r2⌋).toNat < s.length := by
      have h3 := (rank_floor_ceil_bounds h02 h2).2
      have h4 := Int.toNat_le_toNat (Int.floor_le_ceil r2)
      omega
    have hcf : ⌈r1⌉ ≤ ⌊r2⌋ := le_trans (Int.ceil_le_floor_add_one r1) (by omega)
    have hmid : s.getD (⌈r1⌉).toNat 0 ≤ s.getD (⌊r2⌋).toNat 0 :=
      sorted_getD_mono hs (Int.toNat_le_toNat hcf) hjb
    exact le_trans hb1.2 (le_trans hmid hb2.1)

/-- `np.percentile` is monotone in the requested percentile. -/
lemma np_percentile_q_mono (xs : List ℚ) (hxs : xs ≠ []) {q1 q2 : ℚ}
    (h0 : 0 ≤ q1) (h12 : q1 ≤ q2) (h2 : q2 ≤ 100) :
    np_percentile_q xs q1 ≤ np_percentile_q xs q2 := by
  have hs := List.sorted_insertionSort (· ≤ ·) xs
  have hlen : (List.insertionSort (· ≤ ·) xs).length = xs.length :=
    (List.perm_insertionSort (· ≤ ·) xs).length_eq
  have hn1 : 1 ≤ xs.length := List.length_pos.mpr hxs
  have hnQ : (1 : ℚ) ≤ (xs.length : ℚ) := by exact_mod_cast hn1
  have hq20 : 0 ≤ q2 := le_trans h0 h12
  unfold np_percentile_q
  apply interp_at_mono hs
  · exact mul_nonneg (div_nonneg h0 (by norm_num)) (by linarith)
  · exact mul_le_mul_of_nonneg_right (by linarith) (by linarith)
  · rw [hlen]
    calc q2 / 100 * ((xs.length : ℚ) - 1)
        ≤ 1 * ((xs.length : ℚ) - 1) :=
          mul_le_mul_of_nonneg_right (by linarith) (by linarith)
      _ = (xs.length : ℚ) - 1 := one_mul _

/-- Some element of the list is at or below any percentile value. -/
lemma np_percentile_q_ge_min (xs : List ℚ) (hxs : xs ≠ []) {q : ℚ}
    (h0 : 0 ≤ q) (h1 : q ≤ 100) :
    ∃ y ∈ xs, y ≤ np_percentile_q xs q := by
  have hs := List.sorted_insertionSort (· ≤ ·) xs
  have hlen : (List.insertionSort (· ≤ ·) xs).length = xs.length :=
    (List.perm_insertionSort (· ≤ ·) xs).length_eq
  have hn1 : 1 ≤ xs.length := List.length_pos.mpr hxs
  have hnQ : (1 : ℚ) ≤ (xs.length : ℚ) := by exact_mod_cast hn1
  have hr0 : 0 ≤ q / 100 * ((xs.length : ℚ) - 1) :=
    mul_nonneg (div_nonneg h0 (by norm_num)) (by linarith)
  have hr1 : q / 100 * ((xs.length : ℚ) - 1)
      ≤ ((List.insertionSort (· ≤ ·) xs).length : ℚ) - 1 := by
    rw [hlen]
    calc q / 100 * ((xs.length : ℚ) - 1)
        ≤ 1 * ((xs.length : ℚ) - 1) :=
          mul_le_mul_of_nonneg_right (by linarith) (by linarith)
      _ = (xs.length : ℚ) - 1 := one_mul _
  obtain ⟨hij, hj⟩ := rank_floor_ceil_bounds hr0 hr1
  have hi : (⌊q / 100 * ((xs.length : ℚ) - 1)⌋).toNat
      < (List.insertionSort (· ≤ ·) xs).length := lt_of_le_of_lt hij hj
  refine ⟨(List.insertionSort (· ≤ ·) xs).getD
    (⌊q / 100 * ((xs.length : ℚ) - 1)⌋).toNat 0, ?_, ?_⟩
  · rw [getD_eq_getElem_of_lt _ _ hi]
    exact (List.mem_insertionSort (· ≤ ·)).mp (List.getElem_mem hi)
  · exact (interp_at_bounds hs hr0 hr1).1

/-! ### Claim theorems -/

/-- C2: evaluation of the trend computation at a failing input.  With exactly
one recorded prior DEFAULT_RISK assessment (score 50) and current score 80,
`_calculate_risk_trend` returns `(80, STABLE)` — the `offset(1)` query skips
the only prior row because the current assessment is not yet persisted — and
with two priors (scores 50 then 60) it compares against the older one,
returning `(50, DETERIORATING)` instead of using the most recent score 60. -/
theorem c2_code_evaluation :
    (prior_default_risk_predictions db_c2_one "INV1").map (fun p => p.risk_score) = [50] ∧
    calculate_risk_trend db_c2_one "INV1" 80 = (80, "STABLE") ∧
    (prior_default_risk_predictions db_c2_two "INV1").map (fun p => p.risk_score) = [60, 50] ∧
    calculate_risk_trend db_c2_two "INV1" 80 = (50, "DETERIORATING") := by
  refine ⟨rfl, rfl, rfl, rfl⟩

/-- C3: evaluation of the Monte Carlo simulator's seeding discipline.  The
simulator takes no seed parameter; it overwrites the process-wide generator
state with the hard-coded seed 42 on every call, so its returned samples,
derived metrics (var_95 included) and final generator state are identical for
any two ambient generator states. -/
theorem c3_code_evaluation :
    (∀ g1 g2 : NpState,
      (run_monte_carlo_simulation (extract_fund_features "FUND_1") g1).1
        = (run_monte_carlo_simulation (extract_fund_features "FUND_1") g2).1) ∧
    (∀ g1 g2 : NpState,
      calculate_var (run_monte_carlo_simulation (extract_fund_features "FUND_1") g1).1.returns (95/100)
        = calculate_var (run_monte_carlo_simulation (extract_fund_features "FUND_1") g2).1.returns (95/100)) ∧
    (∀ g1 g2 : NpState,
      (run_monte_carlo_simulation (extract_fund_features "FUND_1") g1).2
        = (run_monte_carlo_simulation (extract_fund_features "FUND_1") g2).2) := by
  exact ⟨fun g1 g2 => rfl, fun g1 g2 => rfl, fun g1 g2 => rfl⟩

/-- C4 counterexample: on the worked scenario the scorer returns probability
0.06375 and integer score 25, not the claimed pair (0.065, 26). -/
theorem c4_counterexample :
    predict_default_risk c4_features = ((51 : ℚ)/800, (25 : ℤ)) ∧
    (((51 : ℚ)/800, (25 : ℤ))) ≠ (((13 : ℚ)/200, (26 : ℤ))) := by
  constructor
  · norm_num [predict_default_risk, c4_features, generate_default_risk_features, pyInt]
  · intro h
    have := congrArg Prod.fst h
    norm_num at this

/-- C4 amended: the contributions are 15 + 0 + 4.5 + 6 + 0 = 25.5, the
returned integer score is 25 (Python `int()` truncates), the returned
probability is 0.06375 = 25.5/100*0.25 (derived from the un-truncated score),
and the tier of that probability is TIER_3. -/
theorem c4_amended :
    (3 : ℚ) * 5 + 0 * 15 + (1 - 85/100) * 30 + (3/10) * 20 + max 0 (1/2 - 6/10) * 25 = 51/2 ∧
    predict_default_risk c4_features = ((51 : ℚ)/800, (25 : ℤ)) ∧
    (51 : ℚ)/800 = (51/2) / 100 * (1/4) ∧
    calculate_risk_tier ((51 : ℚ)/800) = "TIER_3" := by
  refine ⟨by norm_num, ?_, by norm_num, ?_⟩
  · norm_num [predict_default_risk, c4_features, generate_default_risk_features, pyInt]
  · norm_num [calculate_risk_tier]

/-- C8: when no PRODUCTION row for the default-risk model id exists, the
assessment raises `ValueError` and the database (the recorder's state) is
returned unchanged — no prediction row is written. -/
theorem c8_model_unavailable (db : DB) (investor_id risk_horizon : String)
    (include_trend : Bool) (uuid_hex : String) (now : ℕ)
    (h : db.models.find?
      (fun m => m.model_id == "DEFAULT_RISK_NN_V2.3" && m.status == "PRODUCTION") = none) :
    assess_investor_default_risk db investor_id risk_horizon include_trend uuid_hex now
      = (Except.error "Default risk model DEFAULT_RISK_NN_V2.3 not found", db) := by
  unfold assess_investor_default_risk
  rw [h]

/-- Witness for C8 at a database whose only model row is in STAGING status. -/
theorem c8_witness :
    assess_investor_default_risk db_staging "INV9" "12M" true "u0" 7
      = (Except.error "Default risk model DEFAULT_RISK_NN_V2.3 not found", db_staging) :=
  c8_model_unavailable db_staging "INV9" "12M" true "u0" 7 (by decide)

/-- C10: an unknown scenario name is not rejected: scenario analysis returns
an entry labeled with the requested name but carrying the BASE parameters
(expected return 0.08, volatility 0.18) and probability 0.10; and an entry's
probability is 0.25 exactly when its scenario name is BASE. -/
theorem c10_unknown_scenario (features : FundFeatures) (name : String)
    (scenarios : List String) :
    (name ∉ (["BULL", "BASE", "BEAR", "TAIL_EVENT"] : List String) →
      run_scenario_analysis features [name] =
        [{ scenario := name, expected_return := 8/100, volatility := 18/100,
           probability := 1/10 }]) ∧
    (∀ res ∈ run_scenario_analysis features scenarios,
      (res.probability = 1/4 ↔ res.scenario = "BASE")) := by
  constructor
  · intro h
    simp only [List.mem_cons, List.not_mem_nil, or_false, not_or] at h
    obtain ⟨h1, h2, h3, h4⟩ := h
    simp [run_scenario_analysis, scenario_params, h1, h2, h3, h4]
  · intro res hres
    simp only [run_scenario_analysis, List.mem_map] at hres
    obtain ⟨s, _, rfl⟩ := hres
    by_cases hs : s = "BASE"
    · simp [hs]
    · simp [hs]

/-- Witness for C10 at the unknown scenario name "FLAT". -/
theorem c10_witness :
    run_scenario_analysis (extract_fund_features "F") ["FLAT"] =
      [{ scenario := "FLAT", expected_return := 8/100, volatility := 18/100,
         probability := 1/10 }] :=
  (c10_unknown_scenario (extract_fund_features "F") "FLAT" []).1 (by decide)

/-- C1 counterexample: running the full default-risk path on a concrete
database (production model registered, feature row with raw score 25.5), the
created record stores `risk_probability = 0.06375` and `risk_score = 25`,
while `round(risk_probability / 0.25 * 100) = round(25.5) = 26`: the stored
score is the truncation, not the rounding, of the raw score. -/
theorem c1_counterexample :
    ((assess_investor_default_risk db_c1 "INV1" "12M" true "abcdef123456" 100).1.toOption.map
      (fun r => (r.risk_probability, r.risk_score))) = some ((51 : ℚ)/800, (25 : ℤ)) ∧
    round (((51 : ℚ)/800) / (1/4) * 100) = 26 ∧
    ((25 : ℤ) = 26) = False := by
  refine ⟨?_, by norm_num [round_eq], by norm_num⟩
  norm_num [assess_investor_default_risk, db_c1, c1_feature_row, latest_feature_record,
    extract_risk_features, features_of_record, generate_default_risk_features, pyOr,
    predict_default_risk, pyInt, calculate_risk_tier, calculate_risk_trend,
    prior_default_risk_predictions, identify_risk_factors, calculate_loss_exposure,
    generate_risk_recommendations, trend_magnitude_py, Except.toOption]

/-- C1 amended: on the default-risk path the stored integer score is the
truncation (Python `int()`), not the rounding, of
`risk_probability / 0.25 * 100`; on the fund path the stored score is the
truncation of `risk_probability * 100` with no division by the 0.25 cap. -/
theorem c1_amended :
    (∀ features : RiskFeatures,
      (predict_default_risk features).2
        = pyInt ((predict_default_risk features).1 / (1/4) * 100)) ∧
    (∀ model_id fund_id : String, ∀ mc : MCResult, ∀ var_95 cvar_95 : Option ℚ,
      ∀ recommendations : List String, ∀ uuid_hex : String, ∀ now : ℕ,
      (fund_risk_record model_id fund_id mc var_95 cvar_95 recommendations
        uuid_hex now).risk_score
        = pyInt ((fund_risk_record model_id fund_id mc var_95 cvar_95 recommendations
            uuid_hex now).risk_probability * 100)) := by
  constructor
  · intro features
    have key : ∀ raw : ℚ, pyInt raw = pyInt (raw / 100 * (1/4) / (1/4) * 100) := by
      intro raw
      congr 1
      ring
    exact key _
  · intro model_id fund_id mc var_95 cvar_95 recommendations uuid_hex now
    rfl

/-- C9: whenever a stored feature record exists, extraction reads each column
through `column or default`: a falsy stored value (SQL NULL or a genuine
zero) is replaced by the hard-coded default of that column (0.9 for the
on-time rate, 1 000 000 for the balance, 0 for the late/missed counts, 0.3
for leverage, 0.6 for sentiment), and a truthy stored value is passed through
unchanged. -/
theorem c9_falsy_defaults (db : DB) (investor_id : String)
    (r : FeatureStoreRecord)
    (hr : latest_feature_record db investor_id = some r) :
    extract_risk_features db investor_id = features_of_record r ∧
    (pyFalsy r.on_time_payment_rate →
      (features_of_record r).on_time_payment_rate = 9/10) ∧
    (pyFalsy r.current_balance →
      (features_of_record r).current_balance = 1000000) ∧
    (pyFalsy r.late_payment_count →
      (features_of_record r).late_payment_count = 0) ∧
    (pyFalsy r.missed_payment_count →
      (features_of_record r).missed_payment_count = 0) ∧
    (pyFalsy r.leverage_ratio →
      (features_of_record r).leverage_ratio = 3/10) ∧
    (pyFalsy r.recent_sentiment_score →
      (features_of_record r).recent_sentiment_score = 6/10) ∧
    (¬ pyFalsy r.on_time_payment_rate →
      r.on_time_payment_rate = some ((features_of_record r).on_time_payment_rate)) := by
  refine ⟨?_, ?_, ?_, ?_, ?_, ?_, ?_, ?_⟩
  · unfold extract_risk_features
    rw [hr]
  · intro h; exact pyOr_falsy h
  · intro h; exact pyOr_falsy h
  · intro h; exact pyOr_falsy h
  · intro h; exact pyOr_falsy h
  · intro h; exact pyOr_falsy h
  · intro h; exact pyOr_falsy h
  · intro h; exact pyOr_truthy h

/-- Witness for C9: a stored on-time rate of 0.0 is read as 0.9 and a stored
balance of 0 as 1 000 000. -/
theorem c9_witness :
    (extract_risk_features db_c9 "INV2").on_time_payment_rate = 9/10 ∧
    (extract_risk_features db_c9 "INV2").current_balance = 1000000 := by
  have h := c9_falsy_defaults db_c9 "INV2" c9_row rfl
  constructor
  · rw [h.1]
    exact h.2.1 (Or.inr rfl)
  · rw [h.1]
    exact h.2.2.1 (Or.inr rfl)

/-- C6: for every non-empty simulated return array and confidence in (0,1),
the tail at or below the VaR cutoff is non-empty (it always contains a
minimal element, so the empty-tail clause of the claim holds vacuously), and
CVaR — the mean of that tail — is at most VaR. -/
theorem c6_cvar_le_var (xs : List ℚ) (c : ℚ) (hxs : xs ≠ [])
    (h0 : 0 < c) (h1 : c < 1) :
    (xs.filter (fun r => r ≤ calculate_var_q xs c)) ≠ [] ∧
    (∃ m, calculate_cvar_q xs c = some m ∧ m ≤ calculate_var_q xs c) ∧
    ((xs.filter (fun r => r ≤ calculate_var_q xs c)) = [] →
      calculate_cvar_q xs c = some (calculate_var_q xs c)) := by
  have hq0 : 0 ≤ (1 - c) * 100 := by nlinarith
  have hq1 : (1 - c) * 100 ≤ 100 := by nlinarith
  obtain ⟨y, hy_mem, hy_le⟩ := np_percentile_q_ge_min xs hxs hq0 hq1
  have hy_tail : y ∈ xs.filter (fun r => r ≤ calculate_var_q xs c) := by
    rw [List.mem_filter]
    refine ⟨hy_mem, ?_⟩
    simpa [calculate_var_q] using hy_le
  have htail_ne : xs.filter (fun r => r ≤ calculate_var_q xs c) ≠ [] :=
    List.ne_nil_of_mem hy_tail
  refine ⟨htail_ne, ?_, fun h => absurd h htail_ne⟩
  have htlen : (xs.filter (fun r => r ≤ calculate_var_q xs c)).length ≠ 0 :=
    fun h => htail_ne (List.length_eq_zero.mp h)
  have htpos : (0 : ℚ) < ((xs.filter (fun r => r ≤ calculate_var_q xs c)).length : ℚ) := by
    exact_mod_cast Nat.pos_of_ne_zero htlen
  have hall : ∀ x ∈ xs.filter (fun r => r ≤ calculate_var_q xs c),
      x ≤ calculate_var_q xs c := by
    intro x hx
    rw [List.mem_filter] at hx
    simpa using hx.2
  have hsum : (xs.filter (fun r => r ≤ calculate_var_q xs c)).sum
      ≤ ((xs.filter (fun r => r ≤ calculate_var_q xs c)).length : ℚ)
        * calculate_var_q xs c := by
    have h := List.sum_le_card_nsmul
      (xs.filter (fun r => r ≤ calculate_var_q xs c)) (calculate_var_q xs c) hall
    simpa [nsmul_eq_mul] using h
  refine ⟨(xs.filter (fun r => r ≤ calculate_var_q xs c)).sum
    / ((xs.filter (fun r => r ≤ calculate_var_q xs c)).length : ℚ), ?_, ?_⟩
  · show np_mean_q (xs.filter (fun r => r ≤ calculate_var_q xs c)) = _
    unfold np_mean_q
    rw [if_neg htlen]
  · rw [div_le_iff₀ htpos]
    calc (xs.filter (fun r => r ≤ calculate_var_q xs c)).sum
        ≤ ((xs.filter (fun r => r ≤ calculate_var_q xs c)).length : ℚ)
          * calculate_var_q xs c := hsum
      _ = calculate_var_q xs c
          * ((xs.filter (fun r => r ≤ calculate_var_q xs c)).length : ℚ) := by ring

/-- Witness for C6 on the array [1, 2, 4] at confidence 0.5. -/
theorem c6_witness :
    ([1, 2, 4] : List ℚ) ≠ [] ∧ (0 : ℚ) < 1/2 ∧ (1 : ℚ)/2 < 1 ∧
    (∃ m, calculate_cvar_q [1, 2, 4] (1/2) = some m ∧
      m ≤ calculate_var_q [1, 2, 4] (1/2)) :=
  ⟨by decide, by norm_num, by norm_num,
    (c6_cvar_le_var [1, 2, 4] (1/2) (by decide) (by norm_num) (by norm_num)).2.1⟩

/-- C7: for every non-empty simulated return array the percentile summaries
are ordered p5 ≤ p25 ≤ p50 ≤ p75 ≤ p95, and VaR(0.99) ≤ VaR(0.95). -/
theorem c7_percentile_order (xs : List ℚ) (hxs : xs ≠ []) :
    np_percentile_q xs 5 ≤ np_percentile_q xs 25 ∧
    np_percentile_q xs 25 ≤ np_percentile_q xs 50 ∧
    np_percentile_q xs 50 ≤ np_percentile_q xs 75 ∧
    np_percentile_q xs 75 ≤ np_percentile_q xs 95 ∧
    calculate_var_q xs (99/100) ≤ calculate_var_q xs (95/100) := by
  refine ⟨np_percentile_q_mono xs hxs (by norm_num) (by norm_num) (by norm_num),
    np_percentile_q_mono xs hxs (by norm_num) (by norm_num) (by norm_num),
    np_percentile_q_mono xs hxs (by norm_num) (by norm_num) (by norm_num),
    np_percentile_q_mono xs hxs (by norm_num) (by norm_num) (by norm_num), ?_⟩
  show np_percentile_q xs ((1 - 99/100) * 100) ≤ np_percentile_q xs ((1 - 95/100) * 100)
  have h1 : ((1 : ℚ) - 99/100) * 100 = 1 := by norm_num
  have h2 : ((1 : ℚ) - 95/100) * 100 = 5 := by norm_num
  rw [h1, h2]
  exact np_percentile_q_mono xs hxs (by norm_num) (by norm_num) (by norm_num)

/-- Witness for C7 on the array [3, 1, 2]. -/
theorem c7_witness :
    ([3, 1, 2] : List ℚ) ≠ [] ∧
    np_percentile_q [3, 1, 2] 5 ≤ np_percentile_q [3, 1, 2] 25 ∧
    calculate_var_q [3, 1, 2] (99/100) ≤ calculate_var_q [3, 1, 2] (95/100) :=
  ⟨by decide, (c7_percentile_order [3, 1, 2] (by decide)).1,
    (c7_percentile_order [3, 1, 2] (by decide)).2.2.2.2⟩

/-- The simulator's draw has exactly the requested number of samples. -/
lemma np_normal_go_length (mean : Option ℚ) (std : ℚ) :
    ∀ n s, ((np_normal_go mean std n s).1).length = n
  | 0, _ => rfl
  | n + 1, s => by
    simp [np_normal_go, np_normal_go_length mean std n]

/-- With a real (non-NaN) mean, no drawn sample is NaN. -/
lemma np_normal_go_all_some (m std : ℚ) :
    ∀ n s, ((np_normal_go (some m) std n s).1).any (fun o => o.isNone) = false
  | 0, _ => rfl
  | n + 1, s => by
    simp [np_normal_go, np_normal_go_all_some m std n]

/-- With a real mean, restricting the drawn samples to their real values
keeps all `n` of them. -/
lemma np_normal_go_filterMap_length (m std : ℚ) :
    ∀ n s, (((np_normal_go (some m) std n s).1).filterMap id).length = n
  | 0, _ => rfl
  | n + 1, s => by
    simp [np_normal_go, np_normal_go_filterMap_length m std n]

/-- With a non-empty historical series (real mean), every derived metric of
the Monte Carlo result is a real number, never NaN. -/
lemma mc_metrics_defined (f : FundFeatures) (g : NpState) (m : ℚ)
    (hm : np_mean_q f.historical_returns = some m) :
    ((run_monte_carlo_simulation f g).1.expected_return).isSome = true ∧
    ((run_monte_carlo_simulation f g).1.volatility).isSome = true ∧
    ((run_monte_carlo_simulation f g).1.max_drawdown).isSome = true ∧
    ((run_monte_carlo_simulation f g).1.p5).isSome = true ∧
    ((run_monte_carlo_simulation f g).1.p25).isSome = true ∧
    ((run_monte_carlo_simulation f g).1.p50).isSome = true ∧
    ((run_monte_carlo_simulation f g).1.p75).isSome = true ∧
    ((run_monte_carlo_simulation f g).1.p95).isSome = true := by
  have hall := np_normal_go_all_some m f.volatility 10000 (np_seed 42)
  have hflen := np_normal_go_filterMap_length m f.volatility 10000 (np_seed 42)
  have hlen := np_normal_go_length (some m) f.volatility 10000 (np_seed 42)
  have hne : ((np_normal_go (some m) f.volatility 10000 (np_seed 42)).1).isEmpty = false := by
    rw [List.isEmpty_eq_false]
    intro h
    rw [h] at hlen
    simp at hlen
  simp only [run_monte_carlo_simulation, np_random_normal, hm]
  refine ⟨?_, ?_, ?_, ?_, ?_, ?_, ?_, ?_⟩
  · simp [np_mean, np_mean_q, hall, hflen]
  · simp [np_std, np_std_q, np_mean_q, hall, hflen]
  · cases hfm : ((np_normal_go (some m) f.volatility 10000 (np_seed 42)).1).filterMap id with
    | nil =>
      rw [hfm] at hflen
      simp at hflen
    | cons y ys => simp [np_min, hall, hfm]
  · simp [np_percentile, hall, hne]
  · simp [np_percentile, hall, hne]
  · simp [np_percentile, hall, hne]
  · simp [np_percentile, hall, hne]
  · simp [np_percentile, hall, hne]

/-- C5 counterexample: on a zero-length historical return series the Monte
Carlo simulator is not rejected by any precondition check — it still draws
its 10000 samples and returns a result — and its expected-return and
percentile metrics are NaN. -/
theorem c5_counterexample :
    degenerate_fund_features.historical_returns = [] ∧
    (run_monte_carlo_simulation degenerate_fund_features 0).1.returns.length = 10000 ∧
    (run_monte_carlo_simulation degenerate_fund_features 0).1.expected_return = none ∧
    (run_monte_carlo_simulation degenerate_fund_features 0).1.p5 = none := by
  refine ⟨rfl, ?_, rfl, rfl⟩
  show ((np_normal_go (np_mean_q degenerate_fund_features.historical_returns)
    degenerate_fund_features.volatility 10000 (np_seed 42)).1).length = 10000
  exact np_normal_go_length _ _ 10000 _

/-- C5 amended: no precondition check exists, but the feature extractor
always supplies a fixed 5-element historical series, so on the fund-risk
path the simulator always receives a non-empty series and none of its
derived metrics is NaN. -/
theorem c5_amended :
    (∀ fund_id : String, (extract_fund_features fund_id).historical_returns.length = 5) ∧
    (∀ fund_id : String, ∀ g : NpState,
      ((run_monte_carlo_simulation (extract_fund_features fund_id) g).1.expected_return).isSome = true ∧
      ((run_monte_carlo_simulation (extract_fund_features fund_id) g).1.volatility).isSome = true ∧
      ((run_monte_carlo_simulation (extract_fund_features fund_id) g).1.max_drawdown).isSome = true ∧
      ((run_monte_carlo_simulation (extract_fund_features fund_id) g).1.p5).isSome = true ∧
      ((run_monte_carlo_simulation (extract_fund_features fund_id) g).1.p25).isSome = true ∧
      ((run_monte_carlo_simulation (extract_fund_features fund_id) g).1.p50).isSome = true ∧
      ((run_monte_carlo_simulation (extract_fund_features fund_id) g).1.p75).isSome = true ∧
      ((run_monte_carlo_simulation (extract_fund_features fund_id) g).1.p95).isSome = true) := by
  constructor
  · intro fund_id
    rfl
  · intro fund_id g
    refine mc_metrics_defined (extract_fund_features fund_id) g (41/500) ?_
    norm_num [extract_fund_features, np_mean_q]

end RiskModeling
